import Mathlib

/-!
Shallow embedding of the MeetingAgent repository (src/agent.py) in Lean 4,
used to check the natural-language specification against the code.

Conventions of the embedding:
* Python/JSON values are modelled by the inductive `JVal`; machine floats do
  not occur in the modelled code paths, so numbers are `Int`.
* Fallible Python code returns `Except PyExc _`; an `Except.error` value is an
  exception that propagates past the function under consideration.
* The HTTP layer is modelled by an oracle `Env.net : Request → HTTPOutcome`
  giving, per request, the HTTP status, raw text and decoded JSON body (or a
  transport failure); query parameters and JSON request bodies are elided from
  `Request` since no modelled check inspects them.
* `zoneinfo.ZoneInfo` is modelled as lookup in a database of fixed UTC offsets
  (`Env.tzdb`); DST transitions are out of scope (the spec itself leaves DST
  disambiguation open).
* `json.dumps` serialization of the tool-result envelopes is elided: the tools
  return the envelope dictionary itself (`JVal`) in place of its JSON text.
-/

/-- JSON / Python value model.  Numbers are integers (`Int`); the modelled
code never computes with floats. -/
inductive JVal where
  | null
  | bool (b : Bool)
  | num (n : Int)
  | str (s : String)
  | arr (elems : List JVal)
  | obj (fields : List (String × JVal))
deriving Repr

/-- Python exceptions distinguished by the modelled code.  `keyError` also
stands for `zoneinfo.ZoneInfoNotFoundError`, which is a subclass of
`KeyError` in CPython (and therefore not caught by `except ValueError`). -/
inductive PyExc where
  | valueError (msg : String)
  | keyError (msg : String)
  | typeError (msg : String)
  | attributeError (msg : String)
deriving Repr, DecidableEq

/-- Python truthiness of a value (`if x:`). -/
def JVal.truthy : JVal → Bool
  | .null => false
  | .bool b => b
  | .num n => n != 0
  | .str s => !s.data.isEmpty
  | .arr xs => !xs.isEmpty
  | .obj fs => !fs.isEmpty

/-- First binding of key `k` in a dict's field list (Python dicts have unique
keys, so first-wins lookup is the dict lookup). -/
def fieldLookup (fs : List (String × JVal)) (k : String) : Option JVal :=
  match fs with
  | [] => none
  | (k2, v) :: rest => if k2 == k then some v else fieldLookup rest k

/-- Dict lookup with a default (`d.get(k, default)` on a dict). -/
def fieldGetD (fs : List (String × JVal)) (k : String) (d : JVal) : JVal :=
  (fieldLookup fs k).getD d

/-- `isinstance(x, dict)`. -/
def JVal.isDict : JVal → Bool
  | .obj _ => true
  | _ => false

/-- Whether a character list begins with the given needle. -/
def charsLeadWith : List Char → List Char → Bool
  | [], _ => true
  | _ :: _, [] => false
  | a :: as, b :: bs => a == b && charsLeadWith as bs

/-- Whether the needle occurs as a contiguous run inside the haystack. -/
def charsContain (needle : List Char) : List Char → Bool
  | [] => charsLeadWith needle []
  | b :: bs => charsLeadWith needle (b :: bs) || charsContain needle bs

/-- Python `needle in hay` for strings (substring containment). -/
def strContainsStr (hay needle : String) : Bool :=
  charsContain needle.data hay.data

/-- Split a character list on `'/'` (the component decomposition used by the
`ZoneInfo` key validation). -/
def splitOnSlashAux (cur : List Char) : List Char → List (List Char)
  | [] => [cur.reverse]
  | c :: rest =>
      if c == '/' then cur.reverse :: splitOnSlashAux [] rest
      else splitOnSlashAux (c :: cur) rest

/-- `str.lower()` restricted to ASCII (the guard's keywords are ASCII). -/
def pyLower (s : String) : String :=
  String.mk (s.data.map Char.toLower)

mutual
/-- Python `==` between two values: structural value equality, with the
CPython identification of `bool` with the integers 0/1.  (Dict equality is
modelled as field-list equality; the modelled code only ever compares
scalars, so key order never matters on the exercised paths.) -/
def pyEq : JVal → JVal → Bool
  | .null, .null => true
  | .bool a, .bool b => a == b
  | .bool a, .num n => (if a then (1 : Int) else 0) == n
  | .num n, .bool a => n == (if a then (1 : Int) else 0)
  | .num a, .num b => a == b
  | .str a, .str b => a == b
  | .arr a, .arr b => pyEqList a b
  | .obj a, .obj b => pyEqObj a b
  | _, _ => false

/-- Elementwise Python equality of two lists. -/
def pyEqList : List JVal → List JVal → Bool
  | [], [] => true
  | a :: as, b :: bs => pyEq a b && pyEqList as bs
  | _, _ => false

/-- Fieldwise Python equality of two dict field lists. -/
def pyEqObj : List (String × JVal) → List (String × JVal) → Bool
  | [], [] => true
  | (k, v) :: as, (k2, v2) :: bs => k == k2 && pyEq v v2 && pyEqObj as bs
  | _, _ => false
end

mutual
/-- Python `repr()` rendering, as used for values interpolated inside
containers by f-strings.  String escaping subtleties are not modelled (the
modelled code never round-trips such output). -/
def pyRepr : JVal → String
  | .null => "None"
  | .bool b => if b then "True" else "False"
  | .num n => toString n
  | .str s => "\x27" ++ s ++ "\x27"
  | .arr xs => "[" ++ pyReprList xs ++ "]"
  | .obj fs => "\x7b" ++ pyReprObj fs ++ "\x7d"

/-- Comma-joined `repr` of list elements. -/
def pyReprList : List JVal → String
  | [] => ""
  | [x] => pyRepr x
  | x :: rest => pyRepr x ++ ", " ++ pyReprList rest

/-- Comma-joined `repr` of dict items. -/
def pyReprObj : List (String × JVal) → String
  | [] => ""
  | [(k, v)] => "\x27" ++ k ++ "\x27: " ++ pyRepr v
  | (k, v) :: rest => "\x27" ++ k ++ "\x27: " ++ pyRepr v ++ ", " ++ pyReprObj rest
end

/-- Python `str()` rendering, as used by f-string interpolation at top level. -/
def pyStr : JVal → String
  | .str s => s
  | v => pyRepr v

/-- Python `k in x` membership test.  On a dict it tests the keys, on a list
the elements, on a string substring containment; on the remaining types it
raises `TypeError` ("argument of type ... is not iterable"). -/
def pyIn (k : String) : JVal → Except PyExc Bool
  | .obj fs => .ok ((fieldLookup fs k).isSome)
  | .arr xs => .ok (xs.any (fun v => pyEq v (.str k)))
  | .str s => .ok (strContainsStr s k)
  | _ => .error (.typeError "argument is not iterable")

/-- Python `x.get(k)` — `None` (here `JVal.null`) when the key is absent;
`AttributeError` when `x` is not a dict. -/
def pyGet (v : JVal) (k : String) : Except PyExc JVal :=
  match v with
  | .obj fs => .ok (fieldGetD fs k .null)
  | _ => .error (.attributeError ("object has no attribute get: " ++ k))

/-- Python `x[k]` with a string key — `KeyError` when the key is absent from a
dict; `TypeError` when `x` is not a dict. -/
def pyIndex (v : JVal) (k : String) : Except PyExc JVal :=
  match v with
  | .obj fs =>
      match fieldLookup fs k with
      | some x => .ok x
      | none => .error (.keyError k)
  | _ => .error (.typeError ("value is not subscriptable by string: " ++ k))

/-- Python `x[:200]` — a prefix slice, defined on strings and lists and a
`TypeError` elsewhere. -/
def pySlice200 : JVal → Except PyExc JVal
  | .str s => .ok (.str (String.mk (s.data.take 200)))
  | .arr xs => .ok (.arr (xs.take 200))
  | _ => .error (.typeError "value is not subscriptable by slice")

/-- Python `x += s` where `s` is a string: string concatenation when `x` is a
string, elementwise extension (by the characters of `s`) when `x` is a list,
and `TypeError` otherwise. -/
def pyIAddStr (x : JVal) (s : String) : Except PyExc JVal :=
  match x with
  | .str t => .ok (.str (t ++ s))
  | .arr xs => .ok (.arr (xs ++ s.data.map (fun c => .str (String.singleton c))))
  | _ => .error (.typeError "unsupported operand types for +=")

/-- Python iteration `for y in x`: list elements, dict keys, string
characters; `TypeError` otherwise. -/
def pyIterate : JVal → Except PyExc (List JVal)
  | .arr xs => .ok xs
  | .obj fs => .ok (fs.map (fun f => .str f.1))
  | .str s => .ok (s.data.map (fun c => .str (String.singleton c)))
  | _ => .error (.typeError "object is not iterable")

/-- `str(e)` for a modelled exception, as interpolated into
`f"Error processing cancellation request: ..."`; CPython renders a
`KeyError`'s argument with `repr`, hence the quotes. -/
def excMsg : PyExc → String
  | .valueError m => m
  | .keyError m => "\x27" ++ m ++ "\x27"
  | .typeError m => m
  | .attributeError m => m

/-! ### Calendar arithmetic and datetime parsing (src/agent.py lines 264-270, 378-386)

`datetime` instants are modelled as integer seconds relative to the epoch
1970-01-01 00:00:00; `daysFromCivil` is the standard proleptic-Gregorian
day-count conversion (matching CPython's `datetime` calendar). -/

/-- Days from the epoch 1970-01-01 to the civil date `(y, m, d)` in the
proleptic Gregorian calendar. -/
def daysFromCivil (y : Int) (m d : Nat) : Int :=
  let y2 : Int := if m ≤ 2 then y - 1 else y
  let era : Int := (if 0 ≤ y2 then y2 else y2 - 399) / 400
  let yoe : Int := y2 - era * 400
  let mp : Int := if m > 2 then (m : Int) - 3 else (m : Int) + 9
  let doy : Int := (153 * mp + 2) / 5 + (d : Int) - 1
  let doe : Int := yoe * 365 + yoe / 4 - yoe / 100 + doy
  era * 146097 + doe - 719468

/-- Whether `y` is a leap year in the Gregorian calendar. -/
def isLeapYear (y : Int) : Bool :=
  (y % 4 == 0 && y % 100 != 0) || y % 400 == 0

/-- Number of days in month `m` of year `y`. -/
def daysInMonth (y : Int) (m : Nat) : Nat :=
  if m == 2 then (if isLeapYear y then 29 else 28)
  else if m == 4 || m == 6 || m == 9 || m == 11 then 30
  else 31

/-- Greedily consume between one and `maxLen` leading decimal digits,
returning their value and the remaining characters (the behaviour of a
`strptime` numeric directive). -/
def takeDigits (maxLen : Nat) (acc : Nat) (taken : Nat) :
    List Char → Option (Nat × List Char)
  | [] => if taken == 0 then none else some (acc, [])
  | c :: rest =>
      if c.isDigit && taken < maxLen then
        takeDigits maxLen (acc * 10 + (c.toNat - 48)) (taken + 1) rest
      else if taken == 0 then none
      else some (acc, c :: rest)

/-- Consume one expected literal character. -/
def expectChar (c : Char) : List Char → Option (List Char)
  | [] => none
  | c2 :: rest => if c2 == c then some rest else none

/-- `datetime.strptime(s, "%Y-%m-%d %H:%M")`: year of 1-4 digits in 1..9999,
month/day/hour/minute of 1-2 digits, field ranges checked, whole string
consumed.  Returns naive minutes since the epoch, or the `ValueError` that
`strptime` raises on any mismatch. -/
def strptimeYmdHm (s : String) : Except PyExc Int :=
  let fail : Except PyExc Int :=
    .error (.valueError ("time data does not match format %Y-%m-%d %H:%M: " ++ s))
  match takeDigits 4 0 0 s.data with
  | none => fail
  | some (y, r1) =>
    match expectChar '-' r1 with
    | none => fail
    | some r2 =>
      match takeDigits 2 0 0 r2 with
      | none => fail
      | some (mo, r3) =>
        match expectChar '-' r3 with
        | none => fail
        | some r4 =>
          match takeDigits 2 0 0 r4 with
          | none => fail
          | some (d, r5) =>
            match expectChar ' ' r5 with
            | none => fail
            | some r6 =>
              match takeDigits 2 0 0 r6 with
              | none => fail
              | some (h, r7) =>
                match expectChar ':' r7 with
                | none => fail
                | some r8 =>
                  match takeDigits 2 0 0 r8 with
                  | none => fail
                  | some (mi, r9) =>
                    if r9.isEmpty && 1 ≤ y && y ≤ 9999 && 1 ≤ mo && mo ≤ 12 &&
                        1 ≤ d && d ≤ daysInMonth (y : Int) mo && h ≤ 23 && mi ≤ 59 then
                      .ok ((daysFromCivil (y : Int) mo d) * 1440 + (h : Int) * 60 + (mi : Int))
                    else fail

/-- A `datetime` value: either naive (no `tzinfo`) or aware; an aware value is
identified by its UTC instant in seconds since the epoch, which is exactly
what aware-datetime equality and `astimezone` observe. -/
inductive PyDT where
  | naive (secs : Int)
  | aware (utcSecs : Int)
deriving Repr, DecidableEq

/-- `datetime.fromisoformat` restricted to the canonical forms the Cal.com
backend emits (after the code's `Z → +00:00` replacement):
`YYYY-MM-DD[<sep>HH:MM[:SS[.ffffff]][±HH:MM]]` with zero-padded fields.
Returns a naive or aware `PyDT`, or `ValueError`. -/
def fromisoformat (s : String) : Except PyExc PyDT :=
  let fail : Except PyExc PyDT := .error (.valueError ("Invalid isoformat string: " ++ s))
  let digits := fun (n : Nat) (cs : List Char) =>
    match takeDigits n 0 0 cs with
    | some (v, r) => if cs.length == r.length + n then some (v, r) else none
    | none => none
  match digits 4 s.data with
  | none => fail
  | some (y, r1) =>
    match expectChar '-' r1 with
    | none => fail
    | some r2 =>
      match digits 2 r2 with
      | none => fail
      | some (mo, r3) =>
        match expectChar '-' r3 with
        | none => fail
        | some r4 =>
          match digits 2 r4 with
          | none => fail
          | some (d, r5) =>
            if !(1 ≤ y && y ≤ 9999 && 1 ≤ mo && mo ≤ 12 && 1 ≤ d && d ≤ daysInMonth (y : Int) mo) then
              fail
            else
              let dateSecs : Int := daysFromCivil (y : Int) mo d * 86400
              match r5 with
              | [] => .ok (.naive dateSecs)
              | _sep :: r6 =>
                match digits 2 r6 with
                | none => fail
                | some (h, r7) =>
                  match expectChar ':' r7 with
                  | none => fail
                  | some r8 =>
                    match digits 2 r8 with
                    | none => fail
                    | some (mi, r9) =>
                      if !(h ≤ 23 && mi ≤ 59) then fail
                      else
                        -- optional seconds and fractional seconds
                        let secPart : Option (Nat × List Char) :=
                          match r9 with
                          | ':' :: r10 =>
                            match digits 2 r10 with
                            | none => none
                            | some (sec, r11) =>
                              if sec ≥ 60 then none
                              else
                                match r11 with
                                | '.' :: r12 =>
                                  match takeDigits 6 0 0 r12 with
                                  | none => none
                                  | some (_, r13) => some (sec, r13)
                                | _ => some (sec, r11)
                          | _ => some (0, r9)
                        match secPart with
                        | none => fail
                        | some (sec, rOff) =>
                          let naiveSecs : Int :=
                            dateSecs + (h : Int) * 3600 + (mi : Int) * 60 + (sec : Int)
                          match rOff with
                          | [] => .ok (.naive naiveSecs)
                          | sign :: ro1 =>
                            if sign != '+' && sign != '-' then fail
                            else
                              match digits 2 ro1 with
                              | none => fail
                              | some (oh, ro2) =>
                                match expectChar ':' ro2 with
                                | none => fail
                                | some ro3 =>
                                  match digits 2 ro3 with
                                  | none => fail
                                  | some (om, ro4) =>
                                    if !ro4.isEmpty then fail
                                    else
                                      let off : Int := (oh : Int) * 3600 + (om : Int) * 60
                                      let off := if sign == '-' then -off else off
                                      .ok (.aware (naiveSecs - off))

/-- Whether a `ZoneInfo` key is path-well-formed; CPython raises `ValueError`
(rather than `ZoneInfoNotFoundError`) for keys that are absolute paths or
contain a `..` component. -/
def tzKeyWellFormed (key : String) : Bool :=
  (match key.data with
   | '/' :: _ => false
   | _ => true) &&
  !(splitOnSlashAux [] key.data).contains ['.', '.']

/-- `zoneinfo.ZoneInfo(key)` against a database `tzdb` of fixed UTC offsets in
minutes: `TypeError` for a non-string key, `ValueError` for a path-ill-formed
key, and `ZoneInfoNotFoundError` — a subclass of `KeyError`, hence NOT caught
by `except ValueError` — for a well-formed key absent from the database. -/
def zoneInfoResolve (tzdb : String → Option Int) : JVal → Except PyExc Int
  | .str key =>
      if !tzKeyWellFormed key then
        .error (.valueError ("ZoneInfo keys must be normalized relative paths, got: " ++ key))
      else
        match tzdb key with
        | some off => .ok off
        | none => .error (.keyError ("No time zone found with key " ++ key))
  | _ => .error (.typeError "ZoneInfo key must be a string")

/-- `dt.astimezone(user_tz)` followed by aware-datetime comparison observes
only the UTC instant; a naive `dt` is first interpreted in the system-local
zone (offset `sysOff` minutes). -/
def astimezoneInstant (sysOff : Int) : PyDT → Int
  | .aware u => u
  | .naive s => s - sysOff * 60

/-! ### Scheduling-backend client (src/agent.py lines 10-13, 172-256) -/

/-- `CAL_COM_BASE_URL` (legacy, v1 surface). -/
def CAL_COM_BASE_URL : String := "https://api.cal.com/v1"

/-- `CAL_COM_FIND_URL` (bearer, v2 surface). -/
def CAL_COM_FIND_URL : String := "https://api.cal.com/v2"

/-- An issued HTTP request.  Query parameters (including the legacy `apiKey`
parameter) and JSON bodies are elided: no modelled check inspects them, only
which requests are issued. -/
structure Request where
  method : String
  url : String
deriving Repr, DecidableEq

/-- The network's behaviour on one request: an HTTP response with status code,
raw body text and its JSON decoding (`none` when the body is not valid JSON),
or a transport-level failure (`requests.exceptions.RequestException`). -/
inductive HTTPOutcome where
  | response (status : Nat) (text : String) (json : Option JVal)
  | transportError (desc : String)

/-- The agent's environment: the backend credential, the timezone database,
the network oracle, and the system-local UTC offset in minutes (observable
only through `astimezone` on a naive datetime). -/
structure Env where
  calApiKey : Option String
  tzdb : String → Option Int
  net : Request → HTTPOutcome
  sysOff : Int

/-- `if not self.cal_api_key:` — the credential is configured when present
and non-empty (`os.environ.get` yields `None` or a string). -/
def keyConfigured : Option String → Bool
  | none => false
  | some s => !s.data.isEmpty

/-- Normalization of one HTTP outcome into the uniform value the client
returns: `raise_for_status` turns a status ≥ 400 into the
`{error, status_code, raw_text}` dict (preferring the JSON-decoded body for
the detail text), a 2xx non-JSON body into the decode-failure dict, and a
transport failure into `{error: "Request exception: ..."}`. -/
def normalizeOutcome : HTTPOutcome → JVal
  | .response status text json =>
      if 400 ≤ status then
        let details : String :=
          match json with
          | some d => pyStr d
          | none => text
        .obj [("error", .str ("HTTP error: " ++ toString status ++ " - " ++ details)),
              ("status_code", .num (status : Int)),
              ("raw_text", .str text)]
      else
        match json with
        | some v => v
        | none => .obj [("error", .str "Failed to decode JSON response from Cal.com API.")]
  | .transportError desc =>
      .obj [("error", .str ("Request exception: " ++ desc))]

/-- `_make_cal_request` (legacy v1 surface): short-circuits without network
I/O when the credential is absent, rejects unsupported methods, otherwise
issues the request and normalizes the outcome.  Returns the resulting value
together with the list of requests issued. -/
def make_cal_request (env : Env) (method endpoint : String) : JVal × List Request :=
  if !keyConfigured env.calApiKey then
    (.obj [("error", .str "Cal.com API key not configured. Cannot perform Cal.com operations.")], [])
  else if method == "GET" || method == "POST" || method == "DELETE" then
    let req : Request := ⟨method, CAL_COM_BASE_URL ++ endpoint⟩
    (normalizeOutcome (env.net req), [req])
  else
    (.obj [("error", .str ("Unsupported HTTP method: " ++ method))], [])

/-- `_make_cal_request_find` (bearer v2 surface): as `make_cal_request` but
against the v2 base URL and supporting only GET and POST. -/
def make_cal_request_find (env : Env) (method endpoint : String) : JVal × List Request :=
  if !keyConfigured env.calApiKey then
    (.obj [("error", .str "Cal.com API key not configured. Cannot perform Cal.com operations.")], [])
  else if method == "GET" || method == "POST" then
    let req : Request := ⟨method, CAL_COM_FIND_URL ++ endpoint⟩
    (normalizeOutcome (env.net req), [req])
  else
    (.obj [("error", .str ("Unsupported HTTP method: " ++ method))], [])

/-! ### Tool implementations (src/agent.py lines 258-415) -/

/-- The fixed `{status: "failure", message}` envelope. -/
def failEnv (m : String) : JVal :=
  .obj [("status", .str "failure"), ("message", .str m)]

/-- The credential-absent envelope shared by all three tools. -/
def notConfiguredEnv : JVal :=
  failEnv "Cal.com API key not configured in the agent."

/-- Arguments of `_book_cal_com_meeting_impl`, as unpacked from the tool
call's JSON arguments.  Fields the implementation only forwards are kept as
raw `JVal`s. -/
structure BookArgs where
  eventTypeId : JVal
  responses : JVal
  meeting_title : JVal
  date : JVal
  start : JVal
  timeZone : JVal
  duration_minutes : JVal
  language : JVal
  metadata : JVal

/-- `timedelta(minutes=x)` accepts numbers (and booleans, which are ints in
Python) and raises `TypeError` otherwise; the modelled code only uses the
resulting end instant for the unmodelled payload, so the value is the number
of minutes. -/
def timedeltaMinutes : JVal → Except PyExc Int
  | .num n => .ok n
  | .bool b => .ok (if b then 1 else 0)
  | _ => .error (.typeError "unsupported type for timedelta")

/-- The validation prefix of `_book_cal_com_meeting_impl` (lines 264-273):
`ZoneInfo`, `strptime` of the combined date+time, and the timedelta addition,
wrapped in `try/except ValueError`.  Returns `some envelope` when the
`except ValueError` branch fires, `none` when validation passes, and
propagates any non-`ValueError` exception (notably `ZoneInfoNotFoundError`,
a `KeyError`). -/
def bookValidate (env : Env) (a : BookArgs) : Except PyExc (Option JVal) :=
  let body : Except PyExc Unit :=
    match zoneInfoResolve env.tzdb a.timeZone with
    | .error e => .error e
    | .ok _off =>
        match strptimeYmdHm (pyStr a.date ++ " " ++ pyStr a.start) with
        | .error e => .error e
        | .ok _naive =>
            match timedeltaMinutes a.duration_minutes with
            | .error e => .error e
            | .ok _dur => .ok ()
  match body with
  | .error (.valueError _) =>
      .ok (some (failEnv "Invalid date or time format. Please use YYYY-MM-DD and HH:MM."))
  | .error e => .error e
  | .ok () => .ok none

/-- Line 289's success condition
`booking_response and "error" not in booking_response and booking_response.get('id')`,
with Python's left-to-right short-circuit evaluation (each conjunct may
raise). -/
def bookSuccessCond (resp : JVal) : Except PyExc Bool :=
  if !resp.truthy then .ok false
  else
    match pyIn "error" resp with
    | .error e => .error e
    | .ok true => .ok false
    | .ok false =>
        match pyGet resp "id" with
        | .error e => .error e
        | .ok idv => .ok idv.truthy

/-- The success envelope of the booking tool (lines 290-305); only reached
when `resp` is a dict. -/
def bookSuccessEnv (resp : JVal) (a : BookArgs) : JVal :=
  let g := fun (k : String) =>
    match resp with
    | .obj fs => fieldGetD fs k .null
    | _ => .null
  .obj [("status", .str "success"),
        ("message", .str "Meeting successfully booked on Cal.com."),
        ("meeting_details", .obj
          [("cal_com_booking_id", g "id"),
           ("title", g "title"),
           ("startTime_utc", g "startTime"),
           ("endTime_utc", g "endTime"),
           ("eventTypeId", a.eventTypeId),
           ("requested_timeZone", a.timeZone),
           ("duration_minutes", a.duration_minutes),
           ("responses", a.responses),
           ("language", a.language),
           ("metadata", a.metadata)])]

/-- The failure branch of the booking tool (lines 306-316): build the error
message from the response's `message`/`error` fields, append the truncated
`raw_text` detail when present (the `+=` can raise `TypeError` when the
response's `message`/`error` value is not string-like); message step only. -/
def bookFailEm (resp : JVal) : Except PyExc JVal :=
  let base : JVal := .str "Unknown error during booking."
  if resp.truthy && resp.isDict then
    match resp with
    | .obj fs =>
        let em0 : JVal := fieldGetD fs "message" (fieldGetD fs "error" base)
        if (fieldLookup fs "raw_text").isSome then
          match pySlice200 (fieldGetD fs "raw_text" .null) with
          | .error e => .error e
          | .ok sliced => pyIAddStr em0 (" (Details: " ++ pyStr sliced ++ ")")
        else .ok em0
    | _ => .ok base
  else .ok base

/-- The failure branch of the booking tool (branching on the message step). -/
def bookFailure (resp : JVal) : Except PyExc JVal :=
  match bookFailEm resp with
  | .error e => .error e
  | .ok em =>
      let status_code : JVal := if resp.isDict then
          (match resp with | .obj fs => fieldGetD fs "status_code" .null | _ => .null)
        else .null
      let em := if pyEq status_code (.num 409) then
          JVal.str "The requested time slot is unavailable or conflicts with booking rules on Cal.com."
        else em
      .ok (failEnv ("Failed to book meeting on Cal.com: " ++ pyStr em))

/-- The handling of the backend's response to the create-booking POST
(lines 289-316). -/
def bookHandleResponse (resp : JVal) (a : BookArgs) : Except PyExc JVal :=
  match bookSuccessCond resp with
  | .error e => .error e
  | .ok true => .ok (bookSuccessEnv resp a)
  | .ok false => bookFailure resp

/-- `_book_cal_com_meeting_impl` (lines 258-316): credential check,
date/time/timezone validation under `except ValueError`, POST to
`/bookings`, and response handling.  Returns the envelope (or the
propagating exception) together with the requests issued. -/
def book_cal_com_meeting_impl (env : Env) (a : BookArgs) :
    Except PyExc JVal × List Request :=
  if !keyConfigured env.calApiKey then (.ok notConfiguredEnv, [])
  else
    match bookValidate env a with
    | .error e => (.error e, [])
    | .ok (some envlp) => (.ok envlp, [])
    | .ok none =>
        let (resp, log) := make_cal_request env "POST" "/bookings"
        (bookHandleResponse resp a, log)

/-- The transport/HTTP-failure branch of the listing tool (lines 352-360):
starts from `"Unknown error retrieving meetings."`, overrides with the
response's `error` field, and appends truncated `raw_text` and `status_code`
details when present (each `+=` may raise on non-string-like values). -/
def showRetrieveFailure (bd : JVal) : Except PyExc JVal :=
  let base : JVal := .str "Unknown error retrieving meetings."
  let emStep : Except PyExc JVal :=
    if bd.truthy && bd.isDict then
      match bd with
      | .obj fs =>
          let em0 : JVal := fieldGetD fs "error" base
          let em1Step : Except PyExc JVal :=
            if (fieldLookup fs "raw_text").isSome then
              match pySlice200 (fieldGetD fs "raw_text" .null) with
              | .error e => .error e
              | .ok sliced => pyIAddStr em0 (" (Details: " ++ pyStr sliced ++ ")")
            else .ok em0
          match em1Step with
          | .error e => .error e
          | .ok em1 =>
              if (fieldLookup fs "status_code").isSome then
                pyIAddStr em1 (" (Status Code: " ++ pyStr (fieldGetD fs "status_code" .null) ++ ")")
              else .ok em1
      | _ => .ok base
    else .ok base
  match emStep with
  | .error e => .error e
  | .ok em => .ok (failEnv ("Failed to retrieve meetings from Cal.com: " ++ pyStr em))

/-- The fixed unexpected-response-format envelope of the listing tool
(lines 349-351). -/
def unexpectedFormatEnv : JVal :=
  failEnv "Failed to retrieve meetings from Cal.com: Unexpected response format from Cal.com API"

/-- `_show_cal_com_booked_meetings_impl` (lines 319-360).  The result value
`none` is Python's implicit `None`: when the top-level `status` is
`"success"` but `data` is not a dict containing a `bookings` key, control
falls past the inner `if` (which has no `else`) to the end of the function
body. -/
def show_cal_com_booked_meetings_impl (env : Env) (attendeeEmail : JVal) :
    Except PyExc (Option JVal) × List Request :=
  if !keyConfigured env.calApiKey then (.ok (some notConfiguredEnv), [])
  else
    let (bd, log) := make_cal_request_find env "GET" "/bookings"
    let outerCond : Except PyExc Bool :=
      if !bd.truthy then .ok false
      else
        match pyIn "error" bd with
        | .error e => .error e
        | .ok hasErr => .ok !hasErr
    match outerCond with
    | .error e => (.error e, log)
    | .ok true =>
        if bd.isDict && pyEq (match bd with | .obj fs => fieldGetD fs "status" .null | _ => .null)
            (.str "success") then
          let data : JVal := match bd with | .obj fs => fieldGetD fs "data" (.obj []) | _ => .obj []
          if data.isDict && (match data with | .obj dfs => (fieldLookup dfs "bookings").isSome | _ => false) then
            let bookings_list : JVal :=
              match data with | .obj dfs => fieldGetD dfs "bookings" .null | _ => .null
            if !bookings_list.truthy then
              (.ok (some (.obj [("status", .str "success"),
                                ("message", .str ("No meetings found for " ++ pyStr attendeeEmail ++ ".")),
                                ("events", .arr [])])), log)
            else
              (.ok (some (.obj [("status", .str "success"),
                                ("message", .str ("Scheduled Cal.com Events for " ++ pyStr attendeeEmail ++ ":")),
                                ("events", bookings_list)])), log)
          else
            (.ok none, log)
        else
          (.ok (some unexpectedFormatEnv), log)
    | .ok false =>
        match showRetrieveFailure bd with
        | .error e => (.error e, log)
        | .ok envlp => (.ok (some envlp), log)

/-- Arguments of `_cancel_cal_com_meeting_impl`. -/
structure CancelArgs where
  attendeeEmail : JVal
  date : JVal
  start : JVal
  timeZone : JVal
  reason : JVal

/-- Characterwise `Z → +00:00` replacement. -/
def replaceZChars : List Char → List Char
  | [] => []
  | c :: rest =>
      if c == 'Z' then '+' :: '0' :: '0' :: ':' :: '0' :: '0' :: replaceZChars rest
      else c :: replaceZChars rest

/-- Preparatory helper for the definition below: `s.replace "Z" "+00:00"` for
a one-character pattern is the characterwise replacement. -/
def replaceZ (s : String) : String := String.mk (replaceZChars s.data)

/-- `booking['startTime'].replace('Z', '+00:00')`: `AttributeError` when the
value is not a string. -/
def replaceZOffset : JVal → Except PyExc String
  | .str s => .ok (replaceZ s)
  | _ => .error (.attributeError "object has no attribute replace")

/-- The linear scan of lines 384-388: the first booking whose
backend-reported start time, as an instant, equals the target instant
(aware-datetime equality after `astimezone` observes only the instant). -/
def findBooking (sysOff target : Int) : List JVal → Except PyExc (Option JVal)
  | [] => .ok none
  | b :: rest =>
      match pyIndex b "startTime" with
      | .error e => .error e
      | .ok stv =>
          match replaceZOffset stv with
          | .error e => .error e
          | .ok sts =>
              match fromisoformat sts with
              | .error e => .error e
              | .ok dt =>
                  if astimezoneInstant sysOff dt == target then .ok (some b)
                  else findBooking sysOff target rest

/-- The shape gate of lines 381-384: the list the cancellation scan iterates
over — `data['bookings']` when the response is a dict with `status`
`"success"` and a dict `data` containing `bookings` — or `[]` when the shape
deviates (then `target_booking` stays `None`). -/
def cancelScanList (bd : JVal) : Except PyExc (List JVal) :=
  if bd.isDict && pyEq (match bd with | .obj fs => fieldGetD fs "status" .null | _ => .null)
      (.str "success") then
    let data : JVal := match bd with | .obj fs => fieldGetD fs "data" (.obj []) | _ => .obj []
    if data.isDict && (match data with | .obj dfs => (fieldLookup dfs "bookings").isSome | _ => false) then
      pyIterate (match data with | .obj dfs => fieldGetD dfs "bookings" .null | _ => .null)
    else .ok []
  else .ok []

/-- The "no meeting found" envelope of line 391. -/
def noMeetingEnv (a : CancelArgs) : JVal :=
  failEnv ("No meeting found for " ++ pyStr a.attendeeEmail ++ " on " ++ pyStr a.date ++
    " at " ++ pyStr a.start ++ " " ++ pyStr a.timeZone ++ ".")

/-- The truthiness-and-no-error condition of line 402
(`if cancel_response and "error" not in cancel_response:`). -/
def cancelDeleteCond (cr : JVal) : Except PyExc Bool :=
  if !cr.truthy then .ok false
  else
    match pyIn "error" cr with
    | .error e => .error e
    | .ok hasErr => .ok !hasErr

/-- The DELETE-response handling of lines 402-412 (branching). -/
def cancelHandleDelete (b cr : JVal) (a : CancelArgs) : Except PyExc JVal :=
  match cancelDeleteCond cr with
  | .error e => .error e
  | .ok true =>
      match pyIndex b "title" with
      | .error e => .error e
      | .ok title =>
          .ok (.obj [("status", .str "success"),
                     ("message", .str ("Successfully cancelled meeting \x27" ++ pyStr title ++
                       "\x27 scheduled for " ++ pyStr a.date ++ " at " ++ pyStr a.start ++ " " ++
                       pyStr a.timeZone ++ ".")),
                     ("booking_details", b)])
  | .ok false =>
      let base : JVal := .str "Unknown error during cancellation."
      let em : JVal :=
        if cr.truthy && cr.isDict then
          match cr with
          | .obj fs => fieldGetD fs "message" (fieldGetD fs "error" base)
          | _ => base
        else base
      .ok (failEnv ("Failed to cancel meeting: " ++ pyStr em))

/-- Line 373's test `if not bookings_data or "error" in bookings_data:` with
Python's short-circuit semantics. -/
def cancelFetchFailed (bd : JVal) : Except PyExc Bool :=
  if !bd.truthy then .ok true else pyIn "error" bd

/-- Lines 378-379: resolve the timezone and build the target instant (UTC
seconds) from the requested local date and time. -/
def cancelTarget (env : Env) (a : CancelArgs) : Except PyExc Int :=
  match zoneInfoResolve env.tzdb a.timeZone with
  | .error e => .error e
  | .ok off =>
      match strptimeYmdHm (pyStr a.date ++ " " ++ pyStr a.start) with
      | .error e => .error e
      | .ok naive => .ok (naive * 60 - off * 60)

/-- Lines 381-388: the match scan over the (shape-gated) bookings list. -/
def cancelFound (env : Env) (bd : JVal) (tgt : Int) : Except PyExc (Option JVal) :=
  match cancelScanList bd with
  | .error e => .error e
  | .ok bs => findBooking env.sysOff tgt bs

/-- The body of `_cancel_cal_com_meeting_impl`'s `try` block (lines 366-412):
fetch the bookings, resolve the timezone and target instant, scan for an
exactly matching booking, and issue the DELETE when one is found.  Any
exception raised here is caught by the enclosing catch-all. -/
def cancelBody (env : Env) (a : CancelArgs) : Except PyExc JVal × List Request :=
  let (bd, log1) := make_cal_request_find env "GET" "/bookings"
  match cancelFetchFailed bd with
  | .error e => (.error e, log1)
  | .ok true => (.ok (failEnv "Failed to retrieve bookings to find the meeting to cancel."), log1)
  | .ok false =>
      match cancelTarget env a with
      | .error e => (.error e, log1)
      | .ok tgt =>
          match cancelFound env bd tgt with
          | .error e => (.error e, log1)
          | .ok none => (.ok (noMeetingEnv a), log1)
          | .ok (some b) =>
              match pyIndex b "id" with
              | .error e => (.error e, log1)
              | .ok bid =>
                  let (cr, log2) := make_cal_request env "DELETE" ("/bookings/" ++ pyStr bid)
                  match cancelHandleDelete b cr a with
                  | .error e => (.error e, log1 ++ log2)
                  | .ok envlp => (.ok envlp, log1 ++ log2)

/-- `_cancel_cal_com_meeting_impl` (lines 362-415): the credential check
precedes the `try`; everything else is wrapped in `except Exception`, which
maps any exception to a failure envelope. -/
def cancel_cal_com_meeting_impl (env : Env) (a : CancelArgs) :
    Except PyExc JVal × List Request :=
  if !keyConfigured env.calApiKey then (.ok notConfiguredEnv, [])
  else
    match cancelBody env a with
    | (.error e, log) =>
        (.ok (failEnv ("Error processing cancellation request: " ++ excMsg e)), log)
    | (.ok envlp, log) => (.ok envlp, log)

/-! ### Orchestration loop (src/agent.py lines 25-170, 417-469) -/

/-- The fixed system instruction (lines 32-82). -/
def systemPromptContent : String := "You are a chatbot that assists users in booking meetings on Cal.com and retrieving their scheduled Cal.com events.

You should engage users to gather necessary details:
- For booking: Meeting reason/title, participants (emails, names), desired date, time, their timezone (e.g., \x27America/New_York\x27), the Cal.com Event Type ID, and meeting duration in minutes. The chatbot will check Cal.com for availability.
- For retrieving events: User\x27s email associated with Cal.com.
- For cancelling meetings: User\x27s email, meeting date and time, and reason for cancellation (optional).

# Steps

1. **Booking a Meeting (on Cal.com):**
   - Ask the user for: meeting\x27s title, responses (participant\x27s name, email, location), date, start time, timezone of participants), Cal.com Event Type ID, duration (in minutes), the language of the meeting, and event description. 
   - Make sure the timezone of the user is also specified.
   - (Optional but recommended: Check Cal.com for availability of the requested time slot for the given Event Type ID and duration using /slots API).
   - If available (or proceeding directly), create a new event in the user\x27s Cal.com schedule using /bookings API.
   - Confirm the booking with the user and provide the event details.

2. **Retrieving Scheduled Events (from Cal.com):**
   - Ask the user for the attendee\x27s email.
   - Take the json of the response from the /bookings API to retrieve all scheduled events for that user and present the important fields in a nicer fashion.
   - Create a list of these bookings.

3. **Cancelling a Meeting:**
   - Ask the user for their email, the reason why they want to cancel the meeting (if user doesn\x27t give reason leave a blank string), and the time and date of the meeting they want to cancel. 
   - Retrieve the booking UID using the /bookings API.
   - Use the /bookings/{id} API to cancel the meeting.

# Output Format

For booking a meeting:
- Confirm with: \"Your meeting \x27[title]\x27 has been scheduled on Cal.com for [date] at [time] [timezone] for [duration] minutes. Event Type ID: [eventTypeId]. Cal.com Booking ID: [cal_com_booking_id].\"

For retrieving events:
- Provide a list: 
  - \"Scheduled Cal.com Events for [email] on [date] ([timezone]):\"
  - \"[Event Title 1]: Start: [startTime] (UTC), End: [endTime] (UTC), Attendees: [names/emails]\"
  - ... (Note: Cal.com returns times in UTC, inform the user or convert if possible)

For cancelling a meeting:
- Confirm with: \"Your meeting \x27[title]\x27 scheduled for [date] at [time] has been successfully cancelled.\"
- If the meeting cannot be found or cancelled, inform the user with the specific reason.

# Notes
- Always ask for and use timezones for accurate scheduling.
- If Cal.com API key is missing or invalid, inform the user you cannot perform Cal.com operations.
- Handle API errors from Cal.com gracefully.
- An Event Type ID is crucial for booking on Cal.com. If the user doesn\x27t know it, guide them to find it in their Cal.com account.
- For participants, collect their email, name, and timezone.
"

/-- A tool invocation requested by the completion service.  `args` is the
result of `json.loads(tool_call.function.arguments)` (the service's strict
schema guarantees well-formed JSON argument text). -/
structure ToolCall where
  id : String
  name : String
  args : JVal

/-- A conversation-history message.  A tool-role message's `content` of
`none` is Python's `None` (the listing tool can fall through and return
`None`); `some v` stands for the `json.dumps` text of envelope `v`. -/
inductive Msg where
  | system (content : String)
  | user (content : String)
  | assistant (content : Option String) (tool_calls : List ToolCall)
  | tool (tool_call_id : String) (name : String) (content : Option JVal)

/-- `self.messages` as initialized in `__init__` (line 83). -/
def initMessages : List Msg := [Msg.system systemPromptContent]

/-- One round's outcome at the completion service: the call raises, or it
returns an assistant message with optional text content and a (possibly
empty) list of tool calls. -/
inductive LLMResult where
  | exn
  | msg (content : Option String) (tool_calls : List ToolCall)

/-- Required keyword-argument names of `_book_cal_com_meeting_impl`. -/
def bookRequiredKeys : List String :=
  ["eventTypeId", "responses", "meeting_title", "date", "start", "timeZone",
   "duration_minutes", "language", "metadata"]

/-- Whether `f(**fs)` binds cleanly for a parameter list with required names
`required` and optional names `optional`: every required name is present and
no unexpected name occurs (otherwise Python raises `TypeError`). -/
def kwargsOk (fs : List (String × JVal)) (required optional : List String) : Bool :=
  required.all (fun k => (fieldLookup fs k).isSome) &&
    fs.all (fun f => required.contains f.1 || optional.contains f.1)

/-- `self._book_cal_com_meeting_impl(**function_args)` argument binding. -/
def unpackBook (args : JVal) : Except PyExc BookArgs :=
  match args with
  | .obj fs =>
      if kwargsOk fs bookRequiredKeys [] then
        .ok ⟨fieldGetD fs "eventTypeId" .null, fieldGetD fs "responses" .null,
             fieldGetD fs "meeting_title" .null, fieldGetD fs "date" .null,
             fieldGetD fs "start" .null, fieldGetD fs "timeZone" .null,
             fieldGetD fs "duration_minutes" .null, fieldGetD fs "language" .null,
             fieldGetD fs "metadata" .null⟩
      else .error (.typeError "unexpected or missing keyword arguments")
  | _ => .error (.typeError "argument unpacking requires a mapping")

/-- `self._show_cal_com_booked_meetings_impl(**function_args)` binding. -/
def unpackShow (args : JVal) : Except PyExc JVal :=
  match args with
  | .obj fs =>
      if kwargsOk fs ["attendeeEmail"] [] then .ok (fieldGetD fs "attendeeEmail" .null)
      else .error (.typeError "unexpected or missing keyword arguments")
  | _ => .error (.typeError "argument unpacking requires a mapping")

/-- `self._cancel_cal_com_meeting_impl(**function_args)` binding; `reason`
defaults to the empty string. -/
def unpackCancel (args : JVal) : Except PyExc CancelArgs :=
  match args with
  | .obj fs =>
      if kwargsOk fs ["attendeeEmail", "date", "start", "timeZone"] ["reason"] then
        .ok ⟨fieldGetD fs "attendeeEmail" .null, fieldGetD fs "date" .null,
             fieldGetD fs "start" .null, fieldGetD fs "timeZone" .null,
             fieldGetD fs "reason" (.str "")⟩
      else .error (.typeError "unexpected or missing keyword arguments")
  | _ => .error (.typeError "argument unpacking requires a mapping")

/-- The name-based dispatch of lines 447-457: run the matching tool
implementation, or produce the unknown-function envelope.  Returns the tool
message content (`none` = Python `None`) or the propagating exception,
together with the network requests issued. -/
def dispatchCall (env : Env) (tc : ToolCall) : Except PyExc (Option JVal) × List Request :=
  if tc.name == "book_cal_com_meeting" then
    match unpackBook tc.args with
    | .error e => (.error e, [])
    | .ok a =>
        let (r, log) := book_cal_com_meeting_impl env a
        (r.map some, log)
  else if tc.name == "show_cal_com_booked_meetings" then
    match unpackShow tc.args with
    | .error e => (.error e, [])
    | .ok email => show_cal_com_booked_meetings_impl env email
  else if tc.name == "cancel_cal_com_meeting" then
    match unpackCancel tc.args with
    | .error e => (.error e, [])
    | .ok a =>
        let (r, log) := cancel_cal_com_meeting_impl env a
        (r.map some, log)
  else
    (.ok (some (.obj [("status", .str "error"),
                      ("message", .str ("Unknown function: " ++ tc.name))])), [])

/-- The per-round tool-call loop of lines 446-464: dispatch each call in
order, appending a tool-role message for each completed call; an exception
raised by a dispatch stops the loop (that call contributes no message) and
propagates.  Returns the appended messages, the stopping exception if any,
and the requests issued. -/
def runToolCalls (env : Env) : List ToolCall → List Msg × Option PyExc × List Request
  | [] => ([], none, [])
  | tc :: rest =>
      match dispatchCall env tc with
      | (.error e, log) => ([], some e, log)
      | (.ok content, log) =>
          let (ms, err, logs) := runToolCalls env rest
          (Msg.tool tc.id tc.name content :: ms, err, log ++ logs)

/-- The intent keywords of the credential guard (line 425). -/
def intentKeywords : List String := ["book", "show", "meeting", "schedule", "cal.com", "cancel"]

/-- `any(intent in user_input.lower() for intent in [...])`. -/
def hasIntentKeyword (userInput : String) : Bool :=
  intentKeywords.any (fun kw => strContainsStr (pyLower userInput) kw)

/-- The fixed reply of the credential guard (line 426). -/
def noKeyMessage : String :=
  "I can\x27t perform Cal.com operations because the Cal.com API key is not configured. Please ask the administrator to set it up."

/-- The apology APPENDED to history on a completion-service failure
(line 439). -/
def apologyAppended : String :=
  "Sorry, I encountered an error communicating with the AI service."

/-- The apology RETURNED on a completion-service failure (line 440) — note
it is a different string from the one appended. -/
def apologyReturned : String :=
  "Sorry, I encountered an error trying to connect to the AI service."

/-- The iteration-cap fallback reply (line 469). -/
def fallbackApology : String :=
  "Sorry, I couldn\x27t complete your request after a few attempts. There might be an issue with repeated function calls or understanding the final step."

/-- `MAX_TURNS` (line 420). -/
def MAX_TURNS : Nat := 7

/-- The outcome of one `chat` call: the returned value (or propagating
exception), the resulting `self.messages`, the number of completion-service
requests issued, and the backend requests issued. -/
structure ChatOut where
  reply : Except PyExc (Option String)
  history : List Msg
  llmCalls : Nat
  reqs : List Request

/-- The `while turn_count < MAX_TURNS` loop of lines 423-467, with the
remaining iteration budget as fuel and `k` the index of the next
completion-service call (the oracle `llm` maps call indices to outcomes).
Exhausted fuel is the fall-through to line 469's fallback reply. -/
def chatLoop (env : Env) (llm : Nat → LLMResult) (userInput : String) :
    Nat → Nat → List Msg → ChatOut
  | 0, _, hist => ⟨.ok (some fallbackApology), hist, 0, []⟩
  | fuel + 1, k, hist =>
      if !keyConfigured env.calApiKey && hasIntentKeyword userInput then
        ⟨.ok (some noKeyMessage), hist ++ [.assistant (some noKeyMessage) []], 0, []⟩
      else
        match llm k with
        | .exn =>
            ⟨.ok (some apologyReturned), hist ++ [.assistant (some apologyAppended) []], 1, []⟩
        | .msg content tcs =>
            let hist1 := hist ++ [.assistant content tcs]
            if tcs.isEmpty then ⟨.ok content, hist1, 1, []⟩
            else
              let (ms, err, log) := runToolCalls env tcs
              let hist2 := hist1 ++ ms
              match err with
              | some e => ⟨.error e, hist2, 1, log⟩
              | none =>
                  let r := chatLoop env llm userInput fuel (k + 1) hist2
                  ⟨r.reply, r.history, r.llmCalls + 1, log ++ r.reqs⟩

/-- `MeetingSchedulerAgent.chat` (lines 417-469): append the user message,
then run up to `MAX_TURNS` rounds. -/
def chat (env : Env) (llm : Nat → LLMResult) (userInput : String) (hist : List Msg) : ChatOut :=
  chatLoop env llm userInput MAX_TURNS 0 (hist ++ [.user userInput])

/-- A session: a sequence of turns, each a user input with that turn's
completion-service behaviour, folded over the conversation history. -/
def sessionHist (env : Env) (turns : List (String × (Nat → LLMResult))) (hist : List Msg) : List Msg :=
  match turns with
  | [] => hist
  | (input, llm) :: rest => sessionHist env rest (chat env llm input hist).history

/-! ### History invariants -/

/-- Whether some assistant message in `pre` requested the invocation id
`callId`. -/
def priorAssistantHasId (pre : List Msg) (callId : String) : Bool :=
  pre.any fun m =>
    match m with
    | .assistant _ tcs => tcs.any (fun tc => tc.id == callId)
    | _ => false

/-- Every tool-role message in the list is preceded (within `pre` plus the
already-scanned part) by an assistant message carrying the tool-call id it
references. -/
def toolLinkedAux (pre : List Msg) : List Msg → Bool
  | [] => true
  | m :: rest =>
      (match m with
       | .tool callId _ _ => priorAssistantHasId pre callId
       | _ => true) && toolLinkedAux (pre ++ [m]) rest

/-- The first message is the fixed system instruction. -/
def headIsSystem : List Msg → Bool
  | .system s :: _ => s == systemPromptContent
  | _ => false

/-- The conversation-history invariant of the spec's data model: the first
message is the fixed system instruction, and every tool-role message is
preceded by an assistant message carrying its invocation id. -/
def histOk (hist : List Msg) : Bool :=
  headIsSystem hist && toolLinkedAux [] hist

/-! ### Shared helper lemmas and concrete fixtures -/

/-- A dict whose `status` field is the string `"success"` or `"failure"`. -/
def envelopeLike (v : JVal) : Bool :=
  match v with
  | .obj fs =>
      match fieldLookup fs "status" with
      | some (.str s) => s == "success" || s == "failure"
      | _ => false
  | _ => false

theorem envelopeLike_failEnv (m : String) : envelopeLike (failEnv m) = true := rfl

/-- A one-zone timezone database for concrete evaluations. -/
def tzdbUTC : String → Option Int := fun k => if k == "UTC" then some 0 else none

/-- Well-formed booking arguments used by concrete evaluations. -/
def bookArgsW : BookArgs :=
  ⟨.num 12,
   .obj [("name", .str "Alice"), ("email", .str "alice@example.com"),
         ("location", .obj [("optionValue", .str ""), ("value", .str "online")])],
   .str "Sync", .str "2025-01-02", .str "10:00", .str "UTC", .num 30, .str "English",
   .obj [("description", .str "catch up")]⟩

/-! ### C4 -/

/-- C4: with the backend credential absent, each of the three tools returns
the fixed "Cal.com API key not configured in the agent." failure envelope and
issues zero network requests, whatever its arguments and whatever the network
or timezone database would do. -/
theorem c4_credential_absent_tools_fail (tzdb : String → Option Int)
    (net : Request → HTTPOutcome) (sysOff : Int)
    (a : BookArgs) (email : JVal) (c : CancelArgs) :
    book_cal_com_meeting_impl ⟨none, tzdb, net, sysOff⟩ a = (.ok notConfiguredEnv, []) ∧
    show_cal_com_booked_meetings_impl ⟨none, tzdb, net, sysOff⟩ email = (.ok (some notConfiguredEnv), []) ∧
    cancel_cal_com_meeting_impl ⟨none, tzdb, net, sysOff⟩ c = (.ok notConfiguredEnv, []) :=
  ⟨rfl, rfl, rfl⟩

/-! ### C2 -/

/-- Environment for C2: credential configured, a timezone database in which
no key resolves, network unreachable (never consulted on this path). -/
def c2Env : Env := ⟨some "cal_live_k", fun _ => none, fun _ => .transportError "unreachable", 0⟩

/-- Booking arguments with a well-formed but unresolvable IANA name. -/
def c2Args : BookArgs := { bookArgsW with timeZone := .str "America/Nowhere" }

/-- C2 (failing input): on a well-formed but unresolvable timezone name the
booking tool raises `ZoneInfoNotFoundError` (a `KeyError`) past its boundary
— `except ValueError` at line 272 does not catch it — instead of returning
the claimed failure envelope; no request is issued. -/
theorem c2_unresolvable_timezone_raises_past_boundary :
    book_cal_com_meeting_impl c2Env c2Args =
      (.error (.keyError "No time zone found with key America/Nowhere"), []) := rfl

/-! ### C10 -/

/-- Environment whose booking POST returns `{"id": 0}` with HTTP 200. -/
def c10EnvZero : Env :=
  ⟨some "k", tzdbUTC, fun _ => .response 200 "" (some (.obj [("id", .num 0)])), 0⟩

/-- Environment whose booking POST returns `{"id": ""}` with HTTP 200. -/
def c10EnvEmpty : Env :=
  ⟨some "k", tzdbUTC, fun _ => .response 200 "" (some (.obj [("id", .str "")])), 0⟩

/-- Environment whose booking POST returns `{"id": 55}` with HTTP 200. -/
def c10EnvGood : Env :=
  ⟨some "k", tzdbUTC, fun _ => .response 200 "" (some (.obj [("id", .num 55)])), 0⟩

/-- C10: a 2xx booking response carrying an identifier field with a falsy
value (`0` or `""`) and no error key is still reported as a failure, while
the same response with a truthy identifier is reported as success — line
289's `booking_response.get('id')` demands a truthy identifier, not a merely
present one. -/
theorem c10_falsy_identifier_is_failure :
    (book_cal_com_meeting_impl c10EnvZero bookArgsW).1 =
        .ok (failEnv "Failed to book meeting on Cal.com: Unknown error during booking.") ∧
    (book_cal_com_meeting_impl c10EnvEmpty bookArgsW).1 =
        .ok (failEnv "Failed to book meeting on Cal.com: Unknown error during booking.") ∧
    (book_cal_com_meeting_impl c10EnvGood bookArgsW).1 =
        .ok (bookSuccessEnv (.obj [("id", .num 55)]) bookArgsW) :=
  ⟨rfl, rfl, rfl⟩

/-! ### C9 -/

theorem cancelHandleDelete_ok_envelope (b cr : JVal) (a : CancelArgs) (v : JVal)
    (h : cancelHandleDelete b cr a = .ok v) : envelopeLike v = true := by
  unfold cancelHandleDelete at h
  split at h
  · simp at h
  · split at h
    · simp at h
    · obtain rfl := Except.ok.inj h
      rfl
  · obtain rfl := Except.ok.inj h
    exact envelopeLike_failEnv _

theorem cancelBody_ok_envelope (env : Env) (a : CancelArgs) (v : JVal) (log : List Request)
    (h : cancelBody env a = (.ok v, log)) : envelopeLike v = true := by
  unfold cancelBody at h
  split at h
  split at h
  · simp at h
  · rw [Prod.mk.injEq] at h
    obtain ⟨h1, -⟩ := h
    obtain rfl := Except.ok.inj h1
    exact envelopeLike_failEnv _
  · split at h
    · simp at h
    · split at h
      · simp at h
      · rw [Prod.mk.injEq] at h
        obtain ⟨h1, -⟩ := h
        obtain rfl := Except.ok.inj h1
        exact envelopeLike_failEnv _
      · split at h
        · simp at h
        · split at h
          split at h
          · simp at h
          · rw [Prod.mk.injEq] at h
            obtain ⟨h1, -⟩ := h
            obtain rfl := Except.ok.inj h1
            exact cancelHandleDelete_ok_envelope _ _ _ _ (by assumption)

/-- C9: for every environment and argument object, the cancellation tool
returns a JSON envelope whose `status` is `"success"` or `"failure"` and
never propagates an exception — the catch-all of lines 414-415 maps every
exception raised inside the body (unresolvable timezone, malformed
date/time, bookings missing expected fields, ...) to a failure envelope. -/
theorem c9_cancel_never_raises (env : Env) (a : CancelArgs) :
    ∃ v, (cancel_cal_com_meeting_impl env a).1 = .ok v ∧ envelopeLike v = true := by
  by_cases hk : keyConfigured env.calApiKey
  · rcases hcb : cancelBody env a with ⟨r, log⟩
    cases r with
    | error e =>
        refine ⟨failEnv ("Error processing cancellation request: " ++ excMsg e), ?_,
          envelopeLike_failEnv _⟩
        simp [cancel_cal_com_meeting_impl, hk, hcb]
    | ok v =>
        refine ⟨v, ?_, cancelBody_ok_envelope env a v log hcb⟩
        simp [cancel_cal_com_meeting_impl, hk, hcb]
  · refine ⟨notConfiguredEnv, ?_, rfl⟩
    simp only [Bool.not_eq_true] at hk
    simp [cancel_cal_com_meeting_impl, hk]

/-! ### C3 -/

/-- Environment whose booking POST 2xx-returns the bare JSON number `5`. -/
def c3EnvNum : Env := ⟨some "k", tzdbUTC, fun _ => .response 200 "5" (some (.num 5)), 0⟩

/-- Environment whose booking POST 2xx-returns `{"message": 0, "raw_text": ""}`. -/
def c3EnvRaw : Env :=
  ⟨some "k", tzdbUTC,
   fun _ => .response 200 "" (some (.obj [("message", .num 0), ("raw_text", .str "")])), 0⟩

/-- C3 (counterexample): two 2xx backend responses without an identifier and
without an error key on which the booking tool raises `TypeError` past its
boundary instead of returning a failure envelope — the bare-number body `5`
(line 289's `"error" not in booking_response` on an int), and
`{"message": 0, "raw_text": ""}` (line 311's `error_msg += ...` on the
int `0`). -/
theorem c3_counterexample :
    (book_cal_com_meeting_impl c3EnvNum bookArgsW).1 =
        .error (.typeError "argument is not iterable") ∧
    (book_cal_com_meeting_impl c3EnvRaw bookArgsW).1 =
        .error (.typeError "unsupported operand types for +=") :=
  ⟨rfl, rfl⟩

/-- The response carries an `id` field with a truthy value. -/
def hasTruthyId (resp : JVal) : Bool :=
  match resp with
  | .obj fs =>
      match fieldLookup fs "id" with
      | some idv => idv.truthy
      | none => false
  | _ => false

/-- The envelope's `status` field Python-equals the given string. -/
def envStatusIs (v : JVal) (s : String) : Bool :=
  match v with
  | .obj fs => pyEq (fieldGetD fs "status" .null) (.str s)
  | _ => false

theorem bookSuccessCond_true_id (resp : JVal) (h : bookSuccessCond resp = .ok true) :
    hasTruthyId resp = true := by
  unfold bookSuccessCond at h
  split at h
  · simp at h
  · split at h
    · simp at h
    · simp at h
    · split at h
      · simp at h
      · rename_i idv heq
        obtain htruthy := Except.ok.inj h
        unfold pyGet at heq
        cases resp with
        | obj fs =>
            obtain rfl := Except.ok.inj heq
            unfold hasTruthyId
            unfold fieldGetD at htruthy
            cases hl : fieldLookup fs "id" with
            | some x => simp only [hl, Option.getD] at htruthy ⊢; exact htruthy
            | none => rw [hl] at htruthy; simp [JVal.truthy] at htruthy
        | null => simp at heq
        | bool b => simp at heq
        | num n => simp at heq
        | str s => simp at heq
        | arr xs => simp at heq

theorem bookFailure_ok_failEnv (resp : JVal) (v : JVal) (h : bookFailure resp = .ok v) :
    ∃ m, v = failEnv m := by
  unfold bookFailure at h
  split at h
  · simp at h
  · exact ⟨_, (Except.ok.inj h).symm⟩

theorem bookFailEm_no_rawtext (fs : List (String × JVal))
    (hraw : fieldLookup fs "raw_text" = none) :
    ∃ em, bookFailEm (.obj fs) = .ok em := by
  unfold bookFailEm
  split
  · simp only [hraw, Option.isSome_none, Bool.false_eq_true, if_false]
    exact ⟨_, rfl⟩
  · exact ⟨_, rfl⟩

theorem envStatusIs_failEnv (m : String) : envStatusIs (failEnv m) "success" = false := rfl

theorem bookSuccessCond_no_id (fs : List (String × JVal)) (hid : fieldLookup fs "id" = none) :
    bookSuccessCond (.obj fs) = .ok false := by
  unfold bookSuccessCond
  split
  · rfl
  · simp only [pyIn]
    cases he : (fieldLookup fs "error").isSome
    · simp only [Bool.false_eq_true, if_false, pyGet, fieldGetD, hid, Option.getD,
        JVal.truthy]
    · simp

theorem bookFailure_no_rawtext (fs : List (String × JVal)) (hraw : fieldLookup fs "raw_text" = none) :
    ∃ m, bookFailure (.obj fs) = .ok (failEnv m) := by
  obtain ⟨em, hem⟩ := bookFailEm_no_rawtext fs hraw
  unfold bookFailure
  rw [hem]
  exact ⟨_, rfl⟩

/-- C3 (amended): (1) the booking tool reports a success envelope only for a
response that contains a truthy identifier field; (2) for every backend
response that is a JSON object without a raw-diagnostic `raw_text` field and
without an identifier — whether or not it carries an error key — the tool
returns a `status: "failure"` envelope.  (The claim's unqualified form fails
on responses whose failure-message construction itself raises `TypeError`,
per the counterexample.) -/
theorem c3_success_requires_identifier :
    (∀ (resp : JVal) (a : BookArgs) (v : JVal),
        bookHandleResponse resp a = .ok v → envStatusIs v "success" = true →
        hasTruthyId resp = true) ∧
    (∀ (fs : List (String × JVal)) (a : BookArgs),
        fieldLookup fs "raw_text" = none → fieldLookup fs "id" = none →
        ∃ m, bookHandleResponse (.obj fs) a = .ok (failEnv m)) := by
  constructor
  · intro resp a v h hs
    unfold bookHandleResponse at h
    split at h
    · simp at h
    · exact bookSuccessCond_true_id resp (by assumption)
    · obtain ⟨m, rfl⟩ := bookFailure_ok_failEnv resp v h
      rw [envStatusIs_failEnv] at hs
      exact absurd hs (by simp)
  · intro fs a hraw hid
    obtain ⟨m, hm⟩ := bookFailure_no_rawtext fs hraw
    refine ⟨m, ?_⟩
    unfold bookHandleResponse
    rw [bookSuccessCond_no_id fs hid]
    exact hm

/-- Witness for the C3 theorem at concrete inputs: a truthy-identifier
response is indeed flagged, and `{"status": "ok"}` (no id, no raw_text)
yields a failure envelope. -/
theorem c3_success_requires_identifier_witness :
    hasTruthyId (.obj [("id", .num 55)]) = true ∧
    ∃ m, bookHandleResponse (.obj [("status", .str "ok")]) bookArgsW = .ok (failEnv m) :=
  ⟨c3_success_requires_identifier.1 (.obj [("id", .num 55)]) bookArgsW
      (bookSuccessEnv (.obj [("id", .num 55)]) bookArgsW) rfl rfl,
   c3_success_requires_identifier.2 [("status", .str "ok")] bookArgsW rfl rfl⟩

/-! ### C6 -/

/-- Environment whose GET /bookings 2xx-returns `{"status": "success"}`
with no `data.bookings` nesting. -/
def c6Env : Env :=
  ⟨some "k", tzdbUTC, fun _ => .response 200 "" (some (.obj [("status", .str "success")])), 0⟩

/-- C6 (counterexample): on a response with no error key whose top-level
`status` is `"success"` but which contains no `data.bookings` list, the
listing tool returns Python `None` — the inner `if` of lines 335-348 has no
`else`, so control falls off the end of the function — and in particular
returns no failure envelope at all. -/
theorem c6_counterexample :
    (show_cal_com_booked_meetings_impl c6Env (.str "alice@example.com")).1 = .ok none ∧
    ∀ v : JVal,
      (show_cal_com_booked_meetings_impl c6Env (.str "alice@example.com")).1 ≠ .ok (some v) := by
  refine ⟨rfl, ?_⟩
  intro v h
  have e : (show_cal_com_booked_meetings_impl c6Env (.str "alice@example.com")).1 =
      (.ok none : Except PyExc (Option JVal)) := rfl
  rw [e] at h
  simp at h

/-- C6 (amended): for every truthy JSON-object response without an error key
whose top-level `status` is absent or not `"success"`, the listing tool
returns the fixed "Unexpected response format" failure envelope — a branch
distinct from the transport/HTTP-failure branch of lines 352-360.  (When
`status` IS `"success"` but the `data.bookings` nesting is missing, the tool
returns `None` instead — see the counterexample.) -/
theorem c6_status_deviation_unexpected_format (env : Env) (email : JVal)
    (fs : List (String × JVal)) (st : Nat) (txt : String)
    (hkey : keyConfigured env.calApiKey = true)
    (hnet : env.net ⟨"GET", CAL_COM_FIND_URL ++ "/bookings"⟩ = .response st txt (some (.obj fs)))
    (hst : st < 400)
    (hne : fs ≠ [])
    (herr : fieldLookup fs "error" = none)
    (hstat : pyEq (fieldGetD fs "status" .null) (.str "success") = false) :
    show_cal_com_booked_meetings_impl env email =
      (.ok (some unexpectedFormatEnv), [⟨"GET", CAL_COM_FIND_URL ++ "/bookings"⟩]) := by
  obtain ⟨f, rest, rfl⟩ := List.exists_cons_of_ne_nil hne
  have hreq : make_cal_request_find env "GET" "/bookings" =
      (.obj (f :: rest), [⟨"GET", CAL_COM_FIND_URL ++ "/bookings"⟩]) := by
    unfold make_cal_request_find
    simp only [hkey, Bool.not_true, Bool.false_eq_true, if_false]
    simp only [beq_self_eq_true, Bool.true_or, if_true, hnet]
    unfold normalizeOutcome
    dsimp only
    rw [if_neg (by omega : ¬ 400 ≤ st)]
  simp only [show_cal_com_booked_meetings_impl, hreq, hkey, Bool.not_true, Bool.false_eq_true,
    if_false, JVal.truthy, List.isEmpty_cons, Bool.not_false, pyIn, herr, Option.isSome_none,
    JVal.isDict, Bool.true_and, hstat, Bool.and_false, if_true]

/-- Environment whose GET /bookings 2xx-returns `{"status": "ok"}`. -/
def c6WEnv : Env :=
  ⟨some "k", tzdbUTC, fun _ => .response 200 "" (some (.obj [("status", .str "ok")])), 0⟩

/-- Witness for the C6 theorem at a concrete input: a 200 response
`{"status": "ok"}` yields exactly the unexpected-format envelope. -/
theorem c6_status_deviation_witness :
    show_cal_com_booked_meetings_impl c6WEnv (.str "alice@example.com") =
      (.ok (some unexpectedFormatEnv), [⟨"GET", CAL_COM_FIND_URL ++ "/bookings"⟩]) :=
  c6_status_deviation_unexpected_format c6WEnv (.str "alice@example.com")
    [("status", .str "ok")] 200 "" rfl rfl (by omega) (by simp) rfl rfl

/-! ### C5 -/

theorem make_cal_request_find_get_bookings (env : Env) (st : Nat) (txt : String) (v : JVal)
    (hkey : keyConfigured env.calApiKey = true)
    (hnet : env.net ⟨"GET", CAL_COM_FIND_URL ++ "/bookings"⟩ = .response st txt (some v))
    (hst : st < 400) :
    make_cal_request_find env "GET" "/bookings" =
      (v, [⟨"GET", CAL_COM_FIND_URL ++ "/bookings"⟩]) := by
  unfold make_cal_request_find
  simp only [hkey, Bool.not_true, Bool.false_eq_true, if_false]
  simp only [beq_self_eq_true, Bool.true_or, if_true, hnet]
  unfold normalizeOutcome
  dsimp only
  rw [if_neg (by omega : ¬ 400 ≤ st)]

theorem findBooking_none (sysOff tgt : Int) (bs : List JVal)
    (hbs : ∀ b ∈ bs, ∃ s u, pyIndex b "startTime" = .ok (.str s) ∧
        fromisoformat (replaceZ s) = .ok (.aware u) ∧ u ≠ tgt) :
    findBooking sysOff tgt bs = .ok none := by
  induction bs with
  | nil => rfl
  | cons b rest ih =>
      obtain ⟨s, u, h1, h2, h3⟩ := hbs b (List.mem_cons_self b rest)
      unfold findBooking
      rw [h1]
      dsimp only [replaceZOffset]
      rw [h2]
      dsimp only [astimezoneInstant]
      have hne : (u == tgt) = false := by simpa using h3
      rw [hne]
      simp only [Bool.false_eq_true, if_false]
      exact ih (fun b2 hb2 => hbs b2 (List.mem_cons_of_mem _ hb2))

/-- C5: for a cancellation request whose resolved target instant equals no
scanned booking's backend-reported start instant exactly (aware-datetime
equality after `astimezone` compares instants, with no tolerance), the tool
returns the "No meeting found for ..." failure envelope and issues only the
initial GET — no DELETE request. -/
theorem c5_no_exact_match_no_delete (env : Env) (a : CancelArgs)
    (fs : List (String × JVal)) (st : Nat) (txt : String) (tgt : Int) (bs : List JVal)
    (hkey : keyConfigured env.calApiKey = true)
    (hnet : env.net ⟨"GET", CAL_COM_FIND_URL ++ "/bookings"⟩ = .response st txt (some (.obj fs)))
    (hst : st < 400)
    (hne : fs ≠ [])
    (herr : fieldLookup fs "error" = none)
    (htgt : cancelTarget env a = .ok tgt)
    (hscan : cancelScanList (.obj fs) = .ok bs)
    (hbs : ∀ b ∈ bs, ∃ s u, pyIndex b "startTime" = .ok (.str s) ∧
        fromisoformat (replaceZ s) = .ok (.aware u) ∧ u ≠ tgt) :
    cancel_cal_com_meeting_impl env a =
      (.ok (noMeetingEnv a), [⟨"GET", CAL_COM_FIND_URL ++ "/bookings"⟩]) := by
  have hreq := make_cal_request_find_get_bookings env st txt (.obj fs) hkey hnet hst
  have hff : cancelFetchFailed (.obj fs) = .ok false := by
    obtain ⟨f, rest, rfl⟩ := List.exists_cons_of_ne_nil hne
    unfold cancelFetchFailed
    simp only [JVal.truthy, List.isEmpty_cons, Bool.not_false, Bool.not_true,
      Bool.false_eq_true, if_false, pyIn, herr, Option.isSome_none]
  have hfound : cancelFound env (.obj fs) tgt = .ok none := by
    unfold cancelFound
    rw [hscan]
    exact findBooking_none env.sysOff tgt bs hbs
  have hbody : cancelBody env a = (.ok (noMeetingEnv a), [⟨"GET", CAL_COM_FIND_URL ++ "/bookings"⟩]) := by
    unfold cancelBody
    rw [hreq]
    dsimp only
    rw [hff, htgt]
    dsimp only
    rw [hfound]
  unfold cancel_cal_com_meeting_impl
  simp only [hkey, Bool.not_true, Bool.false_eq_true, if_false]
  rw [hbody]

/-- Environment for the C5 witness: one booking at 11:00 UTC. -/
def c5WEnv : Env :=
  ⟨some "k", tzdbUTC,
   fun _ => .response 200 "" (some (.obj
     [("status", .str "success"),
      ("data", .obj [("bookings", .arr
        [.obj [("id", .num 7),
               ("startTime", .str "2025-01-02T11:00:00.000Z"),
               ("title", .str "Sync")]])])])), 0⟩

/-- Cancellation request targeting 10:00 UTC on the same date. -/
def c5Args : CancelArgs :=
  ⟨.str "alice@example.com", .str "2025-01-02", .str "10:00", .str "UTC", .str ""⟩

/-- Witness for the C5 theorem: the 10:00 UTC target matches no booking (the
only booking starts at 11:00 UTC), so the tool reports "no meeting found" and
issues no DELETE. -/
theorem c5_no_exact_match_witness :
    cancel_cal_com_meeting_impl c5WEnv c5Args =
      (.ok (noMeetingEnv c5Args), [⟨"GET", CAL_COM_FIND_URL ++ "/bookings"⟩]) :=
  c5_no_exact_match_no_delete c5WEnv c5Args
    [("status", .str "success"),
     ("data", .obj [("bookings", .arr
       [.obj [("id", .num 7),
              ("startTime", .str "2025-01-02T11:00:00.000Z"),
              ("title", .str "Sync")]])])]
    200 "" 1735812000
    [.obj [("id", .num 7),
           ("startTime", .str "2025-01-02T11:00:00.000Z"),
           ("title", .str "Sync")]]
    rfl rfl (by omega) (by simp) rfl rfl rfl
    (by
      intro b hb
      rw [List.mem_singleton] at hb
      subst hb
      exact ⟨"2025-01-02T11:00:00.000Z", 1735815600, rfl, rfl, by decide⟩)

/-! ### C7 -/

/-- C7 (counterexample): when the first completion-service call raises, the
apology appended to history (line 439, "... communicating with ...") is a
different string from the apology returned (line 440, "... trying to connect
to ..."), so the claim's "the string appended to history equals the string
returned" fails. -/
theorem c7_counterexample :
    chat ⟨some "k", tzdbUTC, fun _ => .transportError "x", 0⟩ (fun _ => .exn) "hello" initMessages =
      ⟨.ok (some apologyReturned),
       initMessages ++ [.user "hello", .assistant (some apologyAppended) []], 1, []⟩ ∧
    apologyAppended ≠ apologyReturned :=
  ⟨rfl, by decide⟩

/-- C7 (amended): if the credential guard does not fire and the first
completion-service call raises, the turn is terminal: the loop appends the
user message and a fixed apology to history, returns a fixed apology, and
never propagates the exception — but the appended and returned apologies are
two different fixed strings. -/
theorem c7_service_failure_terminal (env : Env) (llm : Nat → LLMResult)
    (input : String) (hist : List Msg)
    (hguard : (!keyConfigured env.calApiKey && hasIntentKeyword input) = false)
    (hexn : llm 0 = .exn) :
    chat env llm input hist =
      ⟨.ok (some apologyReturned),
       (hist ++ [.user input]) ++ [.assistant (some apologyAppended) []], 1, []⟩ ∧
    apologyAppended ≠ apologyReturned := by
  constructor
  · show chatLoop env llm input 7 0 (hist ++ [.user input]) = _
    rw [show (7 : Nat) = 6 + 1 from rfl]
    simp only [chatLoop, hguard, Bool.false_eq_true, if_false, hexn]
  · decide

/-- Witness for the C7 theorem at a concrete input. -/
theorem c7_service_failure_witness :
    chat ⟨some "k", tzdbUTC, fun _ => .transportError "y", 0⟩ (fun _ => .exn) "hi" initMessages =
      ⟨.ok (some apologyReturned),
       (initMessages ++ [.user "hi"]) ++ [.assistant (some apologyAppended) []], 1, []⟩ ∧
    apologyAppended ≠ apologyReturned :=
  c7_service_failure_terminal ⟨some "k", tzdbUTC, fun _ => .transportError "y", 0⟩
    (fun _ => .exn) "hi" initMessages rfl rfl

/-! ### C1 -/

/-- Tool-call arguments of the C1 counterexample: a complete booking request
whose timezone is well-formed but unresolvable. -/
def c1BadArgs : JVal :=
  .obj [("eventTypeId", .num 1),
        ("responses", .obj [("name", .str "A"), ("email", .str "a@b.c"),
          ("location", .obj [("optionValue", .str ""), ("value", .str "online")])]),
        ("meeting_title", .str "Sync"), ("date", .str "2025-01-02"), ("start", .str "10:00"),
        ("timeZone", .str "America/Nowhere"), ("duration_minutes", .num 30),
        ("language", .str "English"), ("metadata", .obj [("description", .str "d")])]

/-- A completion service that requests that booking on every round. -/
def c1Llm : Nat → LLMResult :=
  fun _ => .msg none [⟨"call_1", "book_cal_com_meeting", c1BadArgs⟩]

/-- Credential configured; timezone database resolves nothing. -/
def c1Env : Env := ⟨some "k", fun _ => none, fun _ => .transportError "unreachable", 0⟩

/-- C1 (counterexample): with every round requesting a tool call and never
returning plain text, the loop does NOT terminate after the 7th round with
the fallback apology — the very first dispatched call raises
`ZoneInfoNotFoundError` out of the loop after a single completion request. -/
theorem c1_counterexample :
    (chat c1Env c1Llm "hello" initMessages).reply =
        .error (.keyError "No time zone found with key America/Nowhere") ∧
    (chat c1Env c1Llm "hello" initMessages).llmCalls = 1 :=
  ⟨rfl, rfl⟩

/-- One completion round that requests tool calls, all of which dispatch
without raising an exception. -/
def roundOk (env : Env) (r : LLMResult) : Prop :=
  ∃ c tcs, r = .msg c tcs ∧ tcs ≠ [] ∧ (runToolCalls env tcs).2.1 = none

theorem chatLoop_calls_le_fuel (env : Env) (llm : Nat → LLMResult) (input : String) :
    ∀ (fuel k : Nat) (hist : List Msg),
      (chatLoop env llm input fuel k hist).llmCalls ≤ fuel := by
  intro fuel
  induction fuel with
  | zero => intro k hist; exact Nat.le_refl 0
  | succ n ih =>
      intro k hist
      simp only [chatLoop]
      split
      · exact Nat.zero_le _
      · cases hllm : llm k with
        | exn => exact Nat.succ_le_succ (Nat.zero_le n)
        | msg c tcs =>
            dsimp only
            split
            · exact Nat.succ_le_succ (Nat.zero_le n)
            · rcases hrt : runToolCalls env tcs with ⟨ms, err, log⟩
              cases err with
              | some e => simp only [hrt]; exact Nat.succ_le_succ (Nat.zero_le n)
              | none => simp only [hrt]; exact Nat.succ_le_succ (ih (k + 1) _)

theorem chatLoop_all_tool_rounds (env : Env) (llm : Nat → LLMResult) (input : String)
    (hguard : (!keyConfigured env.calApiKey && hasIntentKeyword input) = false) :
    ∀ (fuel k : Nat) (hist : List Msg),
      (∀ i, i < fuel → roundOk env (llm (k + i))) →
      (chatLoop env llm input fuel k hist).reply = .ok (some fallbackApology) ∧
      (chatLoop env llm input fuel k hist).llmCalls = fuel := by
  intro fuel
  induction fuel with
  | zero => intro k hist _; exact ⟨rfl, rfl⟩
  | succ n ih =>
      intro k hist hrounds
      have h0 : roundOk env (llm k) := by
        have := hrounds 0 (Nat.succ_pos n)
        rwa [Nat.add_zero] at this
      obtain ⟨c, tcs, hmsg, htne, herr⟩ := h0
      have htne2 : tcs.isEmpty = false := by
        cases tcs with
        | nil => exact absurd rfl htne
        | cons t ts => rfl
      simp only [chatLoop, hguard, Bool.false_eq_true, if_false, hmsg, htne2]
      rcases hrt : runToolCalls env tcs with ⟨ms, err, log⟩
      rw [hrt] at herr
      obtain rfl : err = none := herr
      dsimp only
      have hrec := ih (k + 1) ((hist ++ [.assistant c tcs]) ++ ms)
        (fun i hi => by
          have := hrounds (i + 1) (Nat.succ_lt_succ hi)
          rwa [show k + (i + 1) = k + 1 + i by omega] at this)
      exact ⟨hrec.1, by rw [hrec.2]⟩

/-- C1 (amended): every turn issues at most `MAX_TURNS = 7` completion
requests; and if the credential guard does not fire, every one of the 7
rounds returns tool-call requests (never a plain-text reply), and every
dispatched call returns without raising, then the loop terminates after the
7th round with the fixed fallback apology, having issued exactly 7
completion requests and no 8th.  (Without the no-raise proviso the claim
fails — a dispatched tool can raise out of the loop, see the
counterexample.) -/
theorem c1_iteration_cap (env : Env) (llm : Nat → LLMResult) (input : String) (hist : List Msg) :
    (chat env llm input hist).llmCalls ≤ 7 ∧
    ((!keyConfigured env.calApiKey && hasIntentKeyword input) = false →
     (∀ i, i < 7 → roundOk env (llm i)) →
     (chat env llm input hist).reply = .ok (some fallbackApology) ∧
     (chat env llm input hist).llmCalls = 7) := by
  constructor
  · exact chatLoop_calls_le_fuel env llm input 7 0 _
  · intro hguard hrounds
    exact chatLoop_all_tool_rounds env llm input hguard 7 0 (hist ++ [.user input])
      (fun i hi => by simpa using hrounds i hi)

/-- A benign oracle for the C1 witness: every round asks to list bookings. -/
def c1WLlm : Nat → LLMResult :=
  fun _ => .msg none [⟨"call_1", "show_cal_com_booked_meetings",
    .obj [("attendeeEmail", .str "a@b.c")]⟩]

/-- Environment for the C1 witness: the listing succeeds with no bookings. -/
def c1WEnv : Env :=
  ⟨some "k", tzdbUTC,
   fun _ => .response 200 "" (some (.obj [("status", .str "success"),
     ("data", .obj [("bookings", .arr [])])])), 0⟩

/-- Witness for the C1 theorem: seven tool-call rounds end in the fallback
apology after exactly 7 completion requests. -/
theorem c1_iteration_cap_witness :
    (chat c1WEnv c1WLlm "hello" initMessages).reply = .ok (some fallbackApology) ∧
    (chat c1WEnv c1WLlm "hello" initMessages).llmCalls = 7 :=
  (c1_iteration_cap c1WEnv c1WLlm "hello" initMessages).2 rfl
    (fun _ _ => ⟨none, [⟨"call_1", "show_cal_com_booked_meetings",
        .obj [("attendeeEmail", .str "a@b.c")]⟩], rfl, by simp, rfl⟩)

/-! ### C8 -/

theorem toolLinkedAux_append (xs : List Msg) : ∀ (pre ys : List Msg),
    toolLinkedAux pre (xs ++ ys) =
      (toolLinkedAux pre xs && toolLinkedAux (pre ++ xs) ys) := by
  induction xs with
  | nil => intro pre ys; simp [toolLinkedAux]
  | cons m rest ih =>
      intro pre ys
      simp only [List.cons_append, toolLinkedAux, List.append_eq]
      rw [ih (pre ++ [m]) ys, List.append_assoc, List.singleton_append, Bool.and_assoc]

theorem priorAssistantHasId_of_mem (pre : List Msg) (c : Option String) (tcs : List ToolCall)
    (tc : ToolCall) (hmem : Msg.assistant c tcs ∈ pre) (htc : tc ∈ tcs) :
    priorAssistantHasId pre tc.id = true := by
  unfold priorAssistantHasId
  rw [List.any_eq_true]
  refine ⟨Msg.assistant c tcs, hmem, ?_⟩
  dsimp only
  rw [List.any_eq_true]
  exact ⟨tc, htc, by simp⟩

theorem runToolCalls_msgs_linked (env : Env) (tcs0 : List ToolCall) (c : Option String) :
    ∀ (tcs : List ToolCall) (pre : List Msg),
      (∀ tc ∈ tcs, tc ∈ tcs0) → Msg.assistant c tcs0 ∈ pre →
      toolLinkedAux pre (runToolCalls env tcs).1 = true := by
  intro tcs
  induction tcs with
  | nil => intro pre _ _; rfl
  | cons tc rest ih =>
      intro pre hsub hmem
      rcases hd : dispatchCall env tc with ⟨r, log⟩
      cases r with
      | error e => simp only [runToolCalls, hd]; rfl
      | ok content =>
          rcases hrest : runToolCalls env rest with ⟨ms, err, logs⟩
          simp only [runToolCalls, hd, hrest]
          unfold toolLinkedAux
          dsimp only
          rw [priorAssistantHasId_of_mem pre c tcs0 tc hmem (hsub tc (List.mem_cons_self tc rest))]
          rw [Bool.true_and]
          have := ih (pre ++ [Msg.tool tc.id tc.name content])
            (fun t ht => hsub t (List.mem_cons_of_mem _ ht))
            (List.mem_append_left _ hmem)
          rw [hrest] at this
          exact this

theorem chatLoop_hist_extends (env : Env) (llm : Nat → LLMResult) (input : String) :
    ∀ (fuel k : Nat) (hist : List Msg),
      ∃ s, (chatLoop env llm input fuel k hist).history = hist ++ s ∧
        toolLinkedAux hist s = true := by
  intro fuel
  induction fuel with
  | zero => intro k hist; exact ⟨[], (List.append_nil hist).symm, rfl⟩
  | succ n ih =>
      intro k hist
      simp only [chatLoop]
      split
      · exact ⟨[.assistant (some noKeyMessage) []], rfl, rfl⟩
      · cases hllm : llm k with
        | exn => exact ⟨[.assistant (some apologyAppended) []], rfl, rfl⟩
        | msg c tcs =>
            dsimp only
            split
            · exact ⟨[.assistant c tcs], rfl, rfl⟩
            · rcases hrt : runToolCalls env tcs with ⟨ms, err, log⟩
              have hms : toolLinkedAux (hist ++ [Msg.assistant c tcs]) ms = true := by
                have := runToolCalls_msgs_linked env tcs c tcs
                  (hist ++ [Msg.assistant c tcs]) (fun t ht => ht)
                  (List.mem_append_right _ (List.mem_singleton.mpr rfl))
                rw [hrt] at this
                exact this
              cases err with
              | some e =>
                  dsimp only
                  refine ⟨[Msg.assistant c tcs] ++ ms, by rw [List.append_assoc], ?_⟩
                  rw [toolLinkedAux_append]
                  rw [hms]
                  rfl
              | none =>
                  dsimp only
                  obtain ⟨s2, hh, hl⟩ := ih (k + 1) ((hist ++ [Msg.assistant c tcs]) ++ ms)
                  refine ⟨[Msg.assistant c tcs] ++ (ms ++ s2), ?_, ?_⟩
                  · rw [hh]
                    simp [List.append_assoc]
                  · rw [toolLinkedAux_append]
                    rw [toolLinkedAux_append]
                    have : toolLinkedAux hist [Msg.assistant c tcs] = true := rfl
                    rw [this, hms, Bool.true_and, Bool.true_and]
                    exact hl

theorem chat_hist_extends (env : Env) (llm : Nat → LLMResult) (input : String) (hist : List Msg) :
    ∃ s, (chat env llm input hist).history = hist ++ s ∧ toolLinkedAux hist s = true := by
  obtain ⟨s0, hh, hl⟩ := chatLoop_hist_extends env llm input 7 0 (hist ++ [Msg.user input])
  refine ⟨[Msg.user input] ++ s0, ?_, ?_⟩
  · show (chatLoop env llm input 7 0 (hist ++ [Msg.user input])).history = _
    rw [hh, List.append_assoc]
  · rw [toolLinkedAux_append]
    exact by rw [hl]; rfl

theorem headIsSystem_append (hist s : List Msg) (h : headIsSystem hist = true) :
    headIsSystem (hist ++ s) = true := by
  cases hist with
  | nil => simp [headIsSystem] at h
  | cons m rest =>
      cases m with
      | system c => exact h
      | user c => simp [headIsSystem] at h
      | assistant c tcs => simp [headIsSystem] at h
      | tool i nm c => simp [headIsSystem] at h

theorem chat_histOk (env : Env) (llm : Nat → LLMResult) (input : String) (hist : List Msg)
    (h : histOk hist = true) : histOk (chat env llm input hist).history = true := by
  obtain ⟨s, hh, hl⟩ := chat_hist_extends env llm input hist
  unfold histOk at h ⊢
  rw [Bool.and_eq_true] at h
  rw [hh, Bool.and_eq_true]
  refine ⟨headIsSystem_append hist s h.1, ?_⟩
  have := toolLinkedAux_append hist [] s
  rw [List.nil_append] at this
  rw [this, h.2, hl]
  rfl

/-- C8: over any session (any sequence of turns with arbitrary
completion-service and network behaviour), the orchestration loop only ever
appends to the conversation history — the resulting history extends the
starting one — and it preserves the history invariant: the first message
stays the fixed system instruction, and every tool-role message is preceded
by an assistant message carrying the tool-call id it references. -/
theorem c8_history_append_only (env : Env) (turns : List (String × (Nat → LLMResult)))
    (hist : List Msg) :
    (∃ s, sessionHist env turns hist = hist ++ s) ∧
    (histOk hist = true → histOk (sessionHist env turns hist) = true) := by
  induction turns generalizing hist with
  | nil => exact ⟨⟨[], (List.append_nil hist).symm⟩, fun h => h⟩
  | cons turn rest ih =>
      rcases turn with ⟨input, llm⟩
      obtain ⟨s1, hh1, -⟩ := chat_hist_extends env llm input hist
      obtain ⟨⟨s2, hh2⟩, hok2⟩ := ih (chat env llm input hist).history
      constructor
      · refine ⟨s1 ++ s2, ?_⟩
        show sessionHist env rest (chat env llm input hist).history = _
        rw [hh2, hh1, List.append_assoc]
      · intro h
        show histOk (sessionHist env rest (chat env llm input hist).history) = true
        exact hok2 (chat_histOk env llm input hist h)

/-- Witness for the C8 theorem: a one-turn session starting from the initial
history (whose invariant holds) still satisfies the invariant. -/
theorem c8_history_append_only_witness :
    (∃ s, sessionHist ⟨some "k", tzdbUTC, fun _ => .transportError "z", 0⟩
        [("hello", fun _ => LLMResult.exn)] initMessages = initMessages ++ s) ∧
    histOk (sessionHist ⟨some "k", tzdbUTC, fun _ => .transportError "z", 0⟩
        [("hello", fun _ => LLMResult.exn)] initMessages) = true :=
  ⟨(c8_history_append_only ⟨some "k", tzdbUTC, fun _ => .transportError "z", 0⟩
      [("hello", fun _ => LLMResult.exn)] initMessages).1,
   (c8_history_append_only ⟨some "k", tzdbUTC, fun _ => .transportError "z", 0⟩
      [("hello", fun _ => LLMResult.exn)] initMessages).2
     (by simp [histOk, headIsSystem, initMessages, toolLinkedAux])⟩
